import Mathlib

/-!
Verification of the Gomentum task planner core: the Task Store
(`planner` package), the Tool Gateway (`mcp` package) and the Agent
tool-dispatch loop (`agent` package), shallowly embedded in Lean.

Time instants are modelled as `Int` (seconds since the Unix epoch);
the SQL comparisons on `start_time` / `end_time` become `Int`
comparisons.  The external RFC3339 parser (`time.Parse` from the Go
standard library) is passed to the gateway handlers as a parameter
`parse : String → Option Int`, since it is library code external to
the repository; every theorem quantifies over it.
-/

namespace Gomentum

/-- Task record, from `planner.Task`: id, title, description,
start/end instants, status string ("pending", "completed",
"in_progress") and the reminded flag. -/
structure Task where
  id : Int
  title : String
  description : String
  startTime : Int
  endTime : Int
  status : String
  reminded : Bool
deriving DecidableEq, Repr

/-- State of the Task Store: the `tasks` table in storage (rowid)
order together with the next AUTOINCREMENT id. -/
structure PlannerState where
  tasks : List Task
  nextId : Int
deriving DecidableEq, Repr

/-- The row predicate of `CheckOverlap`'s SQL query:
`id != ? AND start_time < ? AND end_time > ?`. -/
def overlaps (start stop excludeID : Int) (t : Task) : Bool :=
  (t.id != excludeID) && decide (t.startTime < stop) && decide (t.endTime > start)

/-- `Planner.CheckOverlap start end excludeID`: first stored row
(storage order) whose window meets `[start, end)` under the half-open
rule, the row with id `excludeID` excluded; `sql.ErrNoRows` becomes
`none`. -/
def CheckOverlap (ts : List Task) (start stop excludeID : Int) : Option Task :=
  ts.find? (overlaps start stop excludeID)

/-- Row predicate of `GetUpcomingTasks`:
`start_time <= target AND reminded = 0 AND status != 'completed'`
where `target = now + d`. -/
def upcoming (target : Int) (t : Task) : Bool :=
  decide (t.startTime ≤ target) && !t.reminded && (t.status != "completed")

/-- `Planner.GetUpcomingTasks d` at wall-clock `now`: all stored tasks
due by `now + d` that are unreminded and not completed. -/
def GetUpcomingTasks (ts : List Task) (now d : Int) : List Task :=
  ts.filter (upcoming (now + d))

/-- `Planner.AddTask title description start end`: INSERT of a fresh
row with status `pending` and `reminded = 0`; returns the created
record (with `LastInsertId`) and the new store state. -/
def AddTask (st : PlannerState) (title description : String) (start stop : Int) :
    Task × PlannerState :=
  let t : Task := ⟨st.nextId, title, description, start, stop, "pending", false⟩
  (t, ⟨st.tasks ++ [t], st.nextId + 1⟩)

/-- `Planner.GetTask id`: SELECT by id; `sql.ErrNoRows` becomes the
"not found" error. -/
def GetTask (ts : List Task) (id : Int) : Except String Task :=
  match ts.find? (fun t => t.id == id) with
  | some t => .ok t
  | none => .error ("task with ID " ++ toString id ++ " not found")

/-- The row rewrite of `UpdateTask`'s SQL:
`SET title = ?, description = ?, start_time = ?, end_time = ?, status = ?, reminded = 0 WHERE id = ?`. -/
def updateRow (u : Task) (t : Task) : Task :=
  if t.id == u.id then
    ⟨t.id, u.title, u.description, u.startTime, u.endTime, u.status, false⟩
  else t

/-- `Planner.UpdateTask t`: full-record UPDATE by id, unconditionally
clearing `reminded`; zero rows affected becomes the "not found"
error. -/
def UpdateTask (st : PlannerState) (u : Task) : Except String PlannerState :=
  if st.tasks.any (fun t => t.id == u.id) then
    .ok ⟨st.tasks.map (updateRow u), st.nextId⟩
  else
    .error ("task with ID " ++ toString u.id ++ " not found")

/-- `Planner.DeleteTask id`: DELETE by id; zero rows affected becomes
the "not found" error. -/
def DeleteTask (st : PlannerState) (id : Int) : Except String PlannerState :=
  if st.tasks.any (fun t => t.id == id) then
    .ok ⟨st.tasks.filter (fun t => t.id != id), st.nextId⟩
  else
    .error ("task with ID " ++ toString id ++ " not found")

/-- `Planner.MarkAsReminded id`: UPDATE setting `reminded = 1` for the
matching row (no error when the id is absent). -/
def MarkAsReminded (st : PlannerState) (id : Int) : PlannerState :=
  ⟨st.tasks.map (fun t => if t.id == id then { t with reminded := true } else t), st.nextId⟩

/-- Insertion step of the `ORDER BY start_time ASC` sort used by
`ListTasks`. -/
def insertByStart (t : Task) : List Task → List Task
  | [] => [t]
  | u :: us => if t.startTime ≤ u.startTime then t :: u :: us else u :: insertByStart t us

/-- Sort of the task table by ascending `start_time`. -/
def sortByStart : List Task → List Task
  | [] => []
  | t :: ts => insertByStart t (sortByStart ts)

/-- `Planner.ListTasks`: all tasks ordered by `start_time` ascending. -/
def ListTasks (ts : List Task) : List Task :=
  sortByStart ts

/-! Tool Gateway (the `mcp` package).  A tool-call argument map is
modelled by its typed projections: a field is `some v` exactly when
the Go type assertion `args[key].(T)` succeeds; an absent key or a
wrongly-typed value are both `none` (Go then keeps the zero value).
The `id` argument arrives as a JSON number (`float64` truncated with
`int(...)`); it is modelled by the resulting integer. -/

structure Args where
  title : Option String := none
  description : Option String := none
  start_time : Option String := none
  end_time : Option String := none
  status : Option String := none
  id : Option Int := none
  allow_overlap : Option Bool := none
  filename : Option String := none
deriving DecidableEq, Repr

/-- Result of one gateway handler: `mcp.NewToolResultText` or
`mcp.NewToolResultError`. -/
inductive ToolResult where
  | text (s : String) : ToolResult
  | error (s : String) : ToolResult
deriving DecidableEq, Repr

/-- Outcome of `Server.CallTool`, which returns a result plus a Go
`error`: `result` is a non-nil result with nil error, `fatal` the
nil-result/non-nil-error case (reached only by the unknown-tool
default branch). -/
inductive CallOutcome where
  | result (r : ToolResult) (st : PlannerState) : CallOutcome
  | fatal (msg : String) : CallOutcome
deriving DecidableEq, Repr

/-- Two-digit decimal field of Go's reference-layout formatting. -/
def pad2 (n : Int) : String :=
  (if n < 10 then "0" else "") ++ toString n

/-- Go `t.Format("15:04")`: hour and minute of the instant (rendered
from the epoch-second value; the zone attached to the Go value is
abstracted away). -/
def formatHM (t : Int) : String :=
  pad2 ((t.ediv 3600).emod 24) ++ ":" ++ pad2 ((t.ediv 60).emod 60)

/-- Single-quote character, written via its code point. -/
def sq : String := String.singleton (Char.ofNat 39)

/-- The conflict message of `handleAddTask` / `handleUpdateTask`:
`"Time conflict with existing task: '%s' (ID: %d) from %s to %s. Set allow_overlap=true to force."`
filled with the conflicting task's title, id and window. -/
def conflictMsg (c : Task) : String :=
  "Time conflict with existing task: " ++ sq ++ c.title ++ sq ++ " (ID: " ++
    toString c.id ++ ") from " ++ formatHM c.startTime ++ " to " ++
    formatHM c.endTime ++ ". Set allow_overlap=true to force."

/-- `Server.handleAddTask`: read the string arguments (zero value `""`
when absent), parse both times (a parse failure is an error result),
then, unless `allow_overlap` is true, run the conflict check against
the whole table (`excludeID = 0`) and abort on a conflict; otherwise
insert.  The Go parse error rendered by `%v` is abstracted to the
offending input string. -/
def handleAddTask (parse : String → Option Int) (st : PlannerState) (args : Args) :
    ToolResult × PlannerState :=
  let title := args.title.getD ""
  let desc := args.description.getD ""
  let startStr := args.start_time.getD ""
  let endStr := args.end_time.getD ""
  match parse startStr with
  | none => (.error ("Invalid start_time format: " ++ startStr), st)
  | some start =>
    match parse endStr with
    | none => (.error ("Invalid end_time format: " ++ endStr), st)
    | some stop =>
      let allowOverlap := args.allow_overlap.getD false
      match (if allowOverlap then none else CheckOverlap st.tasks start stop 0) with
      | some c => (.error (conflictMsg c), st)
      | none =>
        let (task, st') := AddTask st title desc start stop
        (.text ("Task added: ID=" ++ toString task.id ++ ", Title=" ++ task.title), st')

/-- Title step of `handleUpdateTask`'s field merge:
`if title, ok := args["title"].(string); ok && title != ""`. -/
def applyTitle (args : Args) (t : Task) : Task :=
  match args.title with
  | some s => if s ≠ "" then { t with title := s } else t
  | none => t

/-- Description step of the merge: applied whenever provided, the
empty string included (`ok` alone, no emptiness test). -/
def applyDescription (args : Args) (t : Task) : Task :=
  match args.description with
  | some s => { t with description := s }
  | none => t

/-- Status step of the merge: provided and non-empty. -/
def applyStatus (args : Args) (t : Task) : Task :=
  match args.status with
  | some s => if s ≠ "" then { t with status := s } else t
  | none => t

/-- Start-time step of the merge: provided, non-empty and parseable;
an unparsable value is silently skipped. -/
def applyStart (parse : String → Option Int) (args : Args) (t : Task) : Task :=
  match args.start_time with
  | some s =>
      if s ≠ "" then
        match parse s with
        | some v => { t with startTime := v }
        | none => t
      else t
  | none => t

/-- End-time step of the merge: provided, non-empty and parseable;
an unparsable value is silently skipped. -/
def applyEnd (parse : String → Option Int) (args : Args) (t : Task) : Task :=
  match args.end_time with
  | some s =>
      if s ≠ "" then
        match parse s with
        | some v => { t with endTime := v }
        | none => t
      else t
  | none => t

/-- The field merge of `handleUpdateTask`: the five conditional field
assignments of the Go handler, in source order. -/
def mergeTaskArgs (parse : String → Option Int) (t0 : Task) (args : Args) : Task :=
  applyEnd parse args (applyStart parse args (applyStatus args
    (applyDescription args (applyTitle args t0))))

/-- `Server.handleUpdateTask`: require a numeric id, fetch the stored
task, merge the provided fields, conflict-check the merged window
(excluding the task itself) unless `allow_overlap` is true, then
persist via `UpdateTask`. -/
def handleUpdateTask (parse : String → Option Int) (st : PlannerState) (args : Args) :
    ToolResult × PlannerState :=
  match args.id with
  | none => (.error "Task ID is required and must be a number", st)
  | some id =>
    match GetTask st.tasks id with
    | .error e => (.error ("Failed to find task: " ++ e), st)
    | .ok task0 =>
      let task := mergeTaskArgs parse task0 args
      let allowOverlap := args.allow_overlap.getD false
      match (if allowOverlap then none
             else CheckOverlap st.tasks task.startTime task.endTime task.id) with
      | some c => (.error (conflictMsg c), st)
      | none =>
        match UpdateTask st task with
        | .error e => (.error ("Failed to update task: " ++ e), st)
        | .ok st' => (.text ("Task " ++ toString id ++ " updated successfully"), st')

/-- `Server.handleDeleteTask`: require a numeric id, then delete. -/
def handleDeleteTask (st : PlannerState) (args : Args) : ToolResult × PlannerState :=
  match args.id with
  | none => (.error "Task ID is required and must be a number", st)
  | some id =>
    match DeleteTask st id with
    | .error e => (.error ("Failed to delete task: " ++ e), st)
    | .ok st' => (.text ("Task " ++ toString id ++ " deleted successfully"), st')

/-- Rendering of one task by `json.MarshalIndent` (field layout
abstracted to a single line; instants rendered as their epoch-second
value). -/
def taskJson (t : Task) : String :=
  "\x7b\"id\": " ++ toString t.id ++ ", \"title\": \"" ++ t.title ++
    "\", \"description\": \"" ++ t.description ++
    "\", \"start_time\": " ++ toString t.startTime ++
    ", \"end_time\": " ++ toString t.endTime ++
    ", \"status\": \"" ++ t.status ++
    "\", \"reminded\": " ++ (if t.reminded then "true" else "false") ++ "\x7d"

/-- `Server.handleListTasks`: list all tasks (ordered by start time)
and return their JSON rendering. -/
def handleListTasks (st : PlannerState) : ToolResult × PlannerState :=
  (.text ("[" ++ String.intercalate ", " ((ListTasks st.tasks).map taskJson) ++ "]"), st)

/-- `Server.handleExportTasks`: default the filename to `plan.md` and
export (the markdown file write itself is an external effect outside
the model and always succeeds here). -/
def handleExportTasks (st : PlannerState) (args : Args) : ToolResult × PlannerState :=
  let f0 := args.filename.getD ""
  let filename := if f0 = "" then "plan.md" else f0
  (.text ("Tasks exported to " ++ filename), st)

/-- `Server.handleCurrentTime`: the current instant as a JSON payload
(Go renders it with `time.RFC3339`; the rendering is abstracted to the
epoch-second value). -/
def handleCurrentTime (now : Int) (st : PlannerState) : ToolResult × PlannerState :=
  (.text ("\x7b\"local_time\":\"" ++ toString now ++ "\"\x7d"), st)

/-- `Server.CallTool`: route a named call to its handler; only the
default branch returns a Go error. -/
def CallTool (parse : String → Option Int) (now : Int) (st : PlannerState)
    (name : String) (args : Args) : CallOutcome :=
  match name with
  | "current_time" => let (r, s) := handleCurrentTime now st; .result r s
  | "add_task" => let (r, s) := handleAddTask parse st args; .result r s
  | "list_tasks" => let (r, s) := handleListTasks st; .result r s
  | "export_tasks" => let (r, s) := handleExportTasks st args; .result r s
  | "update_task" => let (r, s) := handleUpdateTask parse st args; .result r s
  | "delete_task" => let (r, s) := handleDeleteTask st args; .result r s
  | other => .fatal ("tool not found: " ++ other)

/-- The gateway's operation catalog, as registered in
`registerTools` / `GetTools`. -/
def catalogNames : List String :=
  ["current_time", "add_task", "list_tasks", "update_task", "delete_task", "export_tasks"]

/-! Agent Loop (the `agent` package).  A model response is free text
plus the requested tool invocations; tool-call arguments are modelled
already structured (the JSON wire format of the tool protocol is
outside the core).  The language-model collaborator is an oracle
mapping the conversation history to the next response.  The loop
`for { ... }` of `OpenAIAgent.Chat` has no iteration cap, so it is
embedded with explicit fuel: `none` means the loop is still running
when the fuel runs out, and a run that returns `none` for every fuel
never terminates. -/

structure ToolCall where
  callId : String
  name : String
  args : Args
deriving DecidableEq, Repr

structure ModelResponse where
  content : String
  toolCalls : List ToolCall
deriving DecidableEq, Repr

/-- One entry of the conversation history (`openai.ChatCompletionMessage`):
role, content and, for tool turns, the id of the invocation answered. -/
structure ChatMsg where
  role : String
  content : String
  toolCallId : String
deriving DecidableEq, Repr

/-- Text fed back into the history for one tool invocation: the
result's text content plus a newline, or `"Error: %v"` when `CallTool`
returned a Go error. -/
def toolReplyText : CallOutcome → String
  | .result (.text s) _ => s ++ "\n"
  | .result (.error s) _ => s ++ "\n"
  | .fatal e => "Error: " ++ e

/-- New store state after one tool invocation (a fatal dispatch leaves
the store untouched). -/
def toolReplyState (st : PlannerState) : CallOutcome → PlannerState
  | .result _ st' => st'
  | .fatal _ => st

/-- Dispatch one tool call: call the gateway and append the tool-result
turn keyed by the invocation id. -/
def dispatchToolCall (parse : String → Option Int) (now : Int)
    (acc : PlannerState × List ChatMsg) (tc : ToolCall) : PlannerState × List ChatMsg :=
  let out := CallTool parse now acc.1 tc.name tc.args
  (toolReplyState acc.1 out, acc.2 ++ [⟨"tool", toolReplyText out, tc.callId⟩])

/-- The tool-dispatch loop of `OpenAIAgent.Chat`, fuel-indexed: ask the
model, append its message, finish with its content when it requests no
tool calls, otherwise dispatch every requested call in order and loop. -/
def chatLoop (parse : String → Option Int) (now : Int)
    (model : List ChatMsg → ModelResponse) :
    Nat → PlannerState → List ChatMsg → Option (String × PlannerState)
  | 0, _, _ => none
  | fuel + 1, st, hist =>
    let resp := model hist
    let hist1 := hist ++ [⟨"assistant", resp.content, ""⟩]
    if resp.toolCalls.isEmpty then
      some (resp.content, st)
    else
      let next := resp.toolCalls.foldl (dispatchToolCall parse now) (st, hist1)
      chatLoop parse now model fuel next.1 next.2

/-- True exactly when `CallTool` returned a (success or error-text)
result with a nil Go error. -/
def CallOutcome.isResult : CallOutcome → Bool
  | .result _ _ => true
  | .fatal _ => false

/-- A concrete finite instantiation of the RFC3339 parser, used for
concrete evaluations of the gateway: four fixed timestamps of one day
mapped to their second-of-day instants, everything else rejected. -/
def parseFix : String → Option Int := fun s =>
  if s = "2024-01-01T10:00:00Z" then some 36000
  else if s = "2024-01-01T10:30:00Z" then some 37800
  else if s = "2024-01-01T11:00:00Z" then some 39600
  else if s = "2024-01-01T11:30:00Z" then some 41400
  else none

/-- A model oracle that immediately answers with no tool calls. -/
def modelStop : List ChatMsg → ModelResponse := fun _ => ⟨"done", []⟩

/-- A model oracle that requests a tool invocation on every response. -/
def modelSpin : List ChatMsg → ModelResponse :=
  fun _ => ⟨"", [⟨"call-1", "list_tasks", {}⟩]⟩

/-! Theorems. -/

/-- Boolean row predicate of `CheckOverlap`, unfolded to its
propositional form. -/
theorem overlaps_iff (s e ex : Int) (t : Task) :
    overlaps s e ex t = true ↔ (t.id ≠ ex ∧ t.startTime < e ∧ t.endTime > s) := by
  simp [overlaps, and_assoc]

/-- C1: `CheckOverlap ts start end excludeId` is sound — any task it
returns is a stored task with `t.id ≠ excludeId`, `t.startTime < end`
and `t.endTime > start` (the half-open overlap rule) — and complete —
it returns some task exactly when such a stored task exists.  Hence
two tasks whose windows meet under the rule are reported in either
creation order, and tasks with disjoint half-open windows
(`A.end ≤ B.start` or `B.end ≤ A.start`) are never reported. -/
theorem checkOverlap_sound_complete (ts : List Task) (s e ex : Int) :
    (∀ t, CheckOverlap ts s e ex = some t →
        t ∈ ts ∧ t.id ≠ ex ∧ t.startTime < e ∧ t.endTime > s)
    ∧ ((CheckOverlap ts s e ex).isSome
        ↔ ∃ t ∈ ts, t.id ≠ ex ∧ t.startTime < e ∧ t.endTime > s) := by
  constructor
  · intro t ht
    exact ⟨List.mem_of_find?_eq_some ht,
      (overlaps_iff s e ex t).1 (List.find?_some ht)⟩
  · rw [CheckOverlap, List.find?_isSome]
    constructor
    · rintro ⟨t, ht, hp⟩
      exact ⟨t, ht, (overlaps_iff s e ex t).1 hp⟩
    · rintro ⟨t, ht, hp⟩
      exact ⟨t, ht, (overlaps_iff s e ex t).2 hp⟩

/-- Concrete evaluation for C1: the overlap check on the window
`[5, 15)` over a store holding `[0, 10)` returns that stored task, and
its returned task satisfies the half-open overlap rule. -/
theorem checkOverlap_sound_complete_witness :
    (⟨1, "A", "", 0, 10, "pending", false⟩ : Task)
        ∈ [⟨1, "A", "", 0, 10, "pending", false⟩]
    ∧ (1 : Int) ≠ 0 ∧ (0 : Int) < 15 ∧ (10 : Int) > 5 :=
  (checkOverlap_sound_complete [⟨1, "A", "", 0, 10, "pending", false⟩] 5 15 0).1
    ⟨1, "A", "", 0, 10, "pending", false⟩ (by decide)

/-- C2: `GetUpcomingTasks d` returns exactly the stored tasks with
`startTime ≤ now + d`, `reminded = false` and `status ≠ "completed"`;
at `d = 0` no returned task is completed or already reminded, and
tasks whose start lies in the past are still returned. -/
theorem getUpcomingTasks_spec (ts : List Task) (now d : Int) :
    (∀ t, t ∈ GetUpcomingTasks ts now d ↔
        (t ∈ ts ∧ t.startTime ≤ now + d ∧ t.reminded = false ∧ t.status ≠ "completed"))
    ∧ (∀ t ∈ GetUpcomingTasks ts now 0, t.status ≠ "completed" ∧ t.reminded = false)
    ∧ (∀ t ∈ ts, t.startTime < now → t.reminded = false → t.status ≠ "completed" →
        t ∈ GetUpcomingTasks ts now 0) := by
  have hmem : ∀ (d' : Int) (t : Task), t ∈ GetUpcomingTasks ts now d' ↔
      (t ∈ ts ∧ t.startTime ≤ now + d' ∧ t.reminded = false ∧ t.status ≠ "completed") := by
    intro d' t
    simp [GetUpcomingTasks, upcoming, List.mem_filter, and_assoc, Bool.not_eq_true']
  refine ⟨hmem d, ?_, ?_⟩
  · intro t ht
    obtain ⟨-, -, hr, hs⟩ := (hmem 0 t).1 ht
    exact ⟨hs, hr⟩
  · intro t ht hlt hr hs
    exact (hmem 0 t).2 ⟨ht, by omega, hr, hs⟩

/-- Concrete evaluation for C2: a task with a past start, unreminded
and pending, is returned by `GetUpcomingTasks 0`. -/
theorem getUpcomingTasks_spec_witness :
    (⟨1, "a", "", -100, 50, "pending", false⟩ : Task)
      ∈ GetUpcomingTasks [⟨1, "a", "", -100, 50, "pending", false⟩] 0 0 :=
  (getUpcomingTasks_spec [⟨1, "a", "", -100, 50, "pending", false⟩] 0 0).2.2
    ⟨1, "a", "", -100, 50, "pending", false⟩ (by simp) (by decide) rfl (by decide)

/-- C3: for every stored task id, `UpdateTask` succeeds and rewrites
the matching row to the submitted title, description, window and
status with `reminded` cleared to false — unconditionally, so also
when the submitted record equals the stored one. -/
theorem updateTask_resets_reminded (st : PlannerState) (u t : Task)
    (ht : t ∈ st.tasks) (hid : t.id = u.id) :
    UpdateTask st u = .ok ⟨st.tasks.map (updateRow u), st.nextId⟩
    ∧ updateRow u t =
        ⟨u.id, u.title, u.description, u.startTime, u.endTime, u.status, false⟩
    ∧ updateRow u t ∈ st.tasks.map (updateRow u) := by
  have hany : st.tasks.any (fun t' => t'.id == u.id) = true := by
    rw [List.any_eq_true]
    exact ⟨t, ht, by simp [hid]⟩
  refine ⟨by simp [UpdateTask, hany], ?_, List.mem_map_of_mem (updateRow u) ht⟩
  simp [updateRow, hid]

/-- Concrete evaluation for C3: updating a task with a record that is
field-for-field identical to the stored one (including `reminded =
true`) still clears `reminded`. -/
theorem updateTask_resets_reminded_witness :
    UpdateTask ⟨[⟨1, "a", "d", 0, 10, "pending", true⟩], 2⟩
        ⟨1, "a", "d", 0, 10, "pending", true⟩
      = .ok ⟨[⟨1, "a", "d", 0, 10, "pending", true⟩].map
          (updateRow ⟨1, "a", "d", 0, 10, "pending", true⟩), 2⟩
    ∧ updateRow ⟨1, "a", "d", 0, 10, "pending", true⟩ ⟨1, "a", "d", 0, 10, "pending", true⟩
      = ⟨1, "a", "d", 0, 10, "pending", false⟩
    ∧ updateRow ⟨1, "a", "d", 0, 10, "pending", true⟩ ⟨1, "a", "d", 0, 10, "pending", true⟩
      ∈ [⟨1, "a", "d", 0, 10, "pending", true⟩].map
          (updateRow ⟨1, "a", "d", 0, 10, "pending", true⟩) :=
  updateTask_resets_reminded ⟨[⟨1, "a", "d", 0, 10, "pending", true⟩], 2⟩
    ⟨1, "a", "d", 0, 10, "pending", true⟩ ⟨1, "a", "d", 0, 10, "pending", true⟩
    (by simp) rfl

/-- Auxiliary `List.find?` fact: a search that fails on the first list
continues on the second. -/
theorem find?_append_of_none {α : Type} {p : α → Bool} {l₁ l₂ : List α}
    (h : l₁.find? p = none) : (l₁ ++ l₂).find? p = l₂.find? p := by
  induction l₁ with
  | nil => rfl
  | cons a l ih =>
    rw [List.find?_cons] at h
    cases hpa : p a with
    | true => simp [hpa] at h
    | false =>
      rw [hpa] at h
      simpa [List.find?_cons, hpa] using ih h

/-- C7: `AddTask` returns exactly the requested record completed with
the fresh id, status `pending` and `reminded = false`, and `GetTask`
on the returned id then yields that same record (the fresh id is not
yet present in the store). -/
theorem addTask_getTask_roundtrip (st : PlannerState) (title desc : String)
    (s e : Int) (hfresh : ∀ t ∈ st.tasks, t.id ≠ st.nextId) :
    (AddTask st title desc s e).1 = ⟨st.nextId, title, desc, s, e, "pending", false⟩
    ∧ GetTask (AddTask st title desc s e).2.tasks (AddTask st title desc s e).1.id
        = .ok (AddTask st title desc s e).1 := by
  have hnone : st.tasks.find? (fun t => t.id == st.nextId) = none := by
    rw [List.find?_eq_none]
    intro t ht
    simpa using hfresh t ht
  refine ⟨rfl, ?_⟩
  show GetTask (st.tasks ++ [⟨st.nextId, title, desc, s, e, "pending", false⟩]) st.nextId
      = .ok ⟨st.nextId, title, desc, s, e, "pending", false⟩
  rw [GetTask, find?_append_of_none hnone]
  simp [List.find?_cons]

/-- Concrete evaluation for C7: creating a second task in a one-task
store and fetching it back by the returned id. -/
theorem addTask_getTask_roundtrip_witness :
    (AddTask ⟨[⟨1, "x", "", 0, 5, "pending", false⟩], 2⟩ "y" "d" 10 20).1
      = ⟨2, "y", "d", 10, 20, "pending", false⟩
    ∧ GetTask (AddTask ⟨[⟨1, "x", "", 0, 5, "pending", false⟩], 2⟩ "y" "d" 10 20).2.tasks
        (AddTask ⟨[⟨1, "x", "", 0, 5, "pending", false⟩], 2⟩ "y" "d" 10 20).1.id
      = .ok (AddTask ⟨[⟨1, "x", "", 0, 5, "pending", false⟩], 2⟩ "y" "d" 10 20).1 := by
  have h := addTask_getTask_roundtrip ⟨[⟨1, "x", "", 0, 5, "pending", false⟩], 2⟩
    "y" "d" 10 20 (by decide)
  exact ⟨h.1, h.1 ▸ h.2⟩

/-- C4: on a window that conflicts with a stored task, `add_task`
without `allow_overlap = true` is aborted with the store unchanged,
the error text spells out the conflicting task's title, id and time
range, and the same request with `allow_overlap = true` creates the
task. -/
theorem addTask_conflict_abort_then_override (parse : String → Option Int)
    (st : PlannerState) (args : Args) (s e : Int) (c : Task)
    (hs : parse (args.start_time.getD "") = some s)
    (he : parse (args.end_time.getD "") = some e)
    (hov : args.allow_overlap ≠ some true)
    (hc : CheckOverlap st.tasks s e 0 = some c) :
    handleAddTask parse st args = (.error (conflictMsg c), st)
    ∧ conflictMsg c = "Time conflict with existing task: " ++ sq ++ c.title ++ sq
        ++ " (ID: " ++ toString c.id ++ ") from " ++ formatHM c.startTime ++ " to "
        ++ formatHM c.endTime ++ ". Set allow_overlap=true to force."
    ∧ handleAddTask parse st { args with allow_overlap := some true }
        = (.text ("Task added: ID=" ++ toString st.nextId ++ ", Title=" ++ args.title.getD ""),
           ⟨st.tasks ++ [⟨st.nextId, args.title.getD "", args.description.getD "",
              s, e, "pending", false⟩], st.nextId + 1⟩) := by
  have hfalse : args.allow_overlap.getD false = false := by
    cases h : args.allow_overlap with
    | none => rfl
    | some b =>
      cases b with
      | true => exact absurd h hov
      | false => rfl
  obtain ⟨ti, de, sta, en, stt, idv, ov, fn⟩ := args
  refine ⟨?_, rfl, ?_⟩
  · simp only [handleAddTask] at *
    rw [hs, he, hfalse]
    simp [hc]
  · simp only [handleAddTask] at *
    rw [hs, he]
    simp [AddTask]

/-- Concrete evaluation for C4: T1 occupies 10:00–11:00; adding T2 at
10:30–11:30 is rejected naming T1, and succeeds with the override. -/
theorem addTask_conflict_abort_then_override_witness :
    handleAddTask parseFix
        ⟨[⟨1, "T1", "", 36000, 39600, "pending", false⟩], 2⟩
        { title := some "T2", start_time := some "2024-01-01T10:30:00Z",
          end_time := some "2024-01-01T11:30:00Z" }
      = (.error (conflictMsg ⟨1, "T1", "", 36000, 39600, "pending", false⟩),
         ⟨[⟨1, "T1", "", 36000, 39600, "pending", false⟩], 2⟩)
    ∧ conflictMsg ⟨1, "T1", "", 36000, 39600, "pending", false⟩
      = "Time conflict with existing task: " ++ sq ++ "T1" ++ sq
        ++ " (ID: " ++ toString (1 : Int) ++ ") from " ++ formatHM 36000 ++ " to "
        ++ formatHM 39600 ++ ". Set allow_overlap=true to force."
    ∧ handleAddTask parseFix
        ⟨[⟨1, "T1", "", 36000, 39600, "pending", false⟩], 2⟩
        { title := some "T2", start_time := some "2024-01-01T10:30:00Z",
          end_time := some "2024-01-01T11:30:00Z", allow_overlap := some true }
      = (.text ("Task added: ID=" ++ toString (2 : Int) ++ ", Title=" ++ "T2"),
         ⟨[⟨1, "T1", "", 36000, 39600, "pending", false⟩,
           ⟨2, "T2", "", 37800, 41400, "pending", false⟩], 3⟩) :=
  addTask_conflict_abort_then_override parseFix
    ⟨[⟨1, "T1", "", 36000, 39600, "pending", false⟩], 2⟩
    { title := some "T2", start_time := some "2024-01-01T10:30:00Z",
      end_time := some "2024-01-01T11:30:00Z" }
    37800 41400 ⟨1, "T1", "", 36000, 39600, "pending", false⟩
    (by decide) (by decide) (by decide) (by decide)

/-- C6 fails on the code: `add_task` never validates the title — a
request with an empty title is accepted, not rejected, and the store
then holds a task whose title is the empty string. -/
theorem addTask_empty_title_counterexample :
    handleAddTask parseFix ⟨[], 1⟩
        { title := some "", start_time := some "2024-01-01T10:00:00Z",
          end_time := some "2024-01-01T11:00:00Z" }
      = (.text "Task added: ID=1, Title=",
         ⟨[⟨1, "", "", 36000, 39600, "pending", false⟩], 2⟩) := by
  decide

/-- C6 amended: `handleAddTask` performs no title validation — for any
title value, the empty string included, once both times parse and the
conflict check does not block, a task carrying exactly that title is
appended to the store. -/
theorem addTask_no_title_validation (parse : String → Option Int)
    (st : PlannerState) (args : Args) (s e : Int)
    (hs : parse (args.start_time.getD "") = some s)
    (he : parse (args.end_time.getD "") = some e)
    (hno : (if args.allow_overlap.getD false then none
            else CheckOverlap st.tasks s e 0) = none) :
    (handleAddTask parse st args).2.tasks
      = st.tasks ++ [⟨st.nextId, args.title.getD "", args.description.getD "",
          s, e, "pending", false⟩] := by
  obtain ⟨ti, de, sta, en, stt, idv, ov, fn⟩ := args
  simp only [handleAddTask] at *
  rw [hs, he]
  simp [hno, AddTask]

/-- Concrete evaluation for the amended C6: an empty-title request on
an empty store creates the empty-titled task. -/
theorem addTask_no_title_validation_witness :
    (handleAddTask parseFix ⟨[], 1⟩
        { title := some "", start_time := some "2024-01-01T10:00:00Z",
          end_time := some "2024-01-01T11:00:00Z" }).2.tasks
      = [] ++ [⟨1, "", "", 36000, 39600, "pending", false⟩] :=
  addTask_no_title_validation parseFix ⟨[], 1⟩
    { title := some "", start_time := some "2024-01-01T10:00:00Z",
      end_time := some "2024-01-01T11:00:00Z" }
    36000 39600 (by decide) (by decide) (by decide)

/-- C5: dispatching any of the six catalogued operations through
`CallTool`, with any argument map and store, yields a result (success
payload or user-facing error text) — never the fatal Go-error branch,
which is reachable only for names outside the catalog. -/
theorem callTool_never_fatal (parse : String → Option Int) (now : Int)
    (st : PlannerState) (name : String) (args : Args)
    (h : name ∈ catalogNames) :
    (CallTool parse now st name args).isResult = true := by
  simp only [catalogNames, List.mem_cons, List.not_mem_nil, or_false] at h
  rcases h with h | h | h | h | h | h <;> subst h <;> rfl

/-- Concrete evaluation for C5: an `update_task` call with a missing
task id still comes back as a (text-error) result, not a fatal
error. -/
theorem callTool_never_fatal_witness :
    (CallTool parseFix 0 ⟨[], 1⟩ "update_task" { id := some 7 }).isResult = true :=
  callTool_never_fatal parseFix 0 ⟨[], 1⟩ "update_task" { id := some 7 } (by decide)

/-- The title merge step writes only the title field. -/
theorem applyTitle_keep (args : Args) (t : Task) :
    (applyTitle args t).description = t.description
    ∧ (applyTitle args t).status = t.status := by
  unfold applyTitle
  cases args.title with
  | none => exact ⟨rfl, rfl⟩
  | some s => by_cases h : s = "" <;> simp [h]

/-- Title produced by the title merge step: a provided empty string is
ignored. -/
theorem applyTitle_title (args : Args) (t : Task) :
    (applyTitle args t).title
      = match args.title with
        | some s => if s ≠ "" then s else t.title
        | none => t.title := by
  unfold applyTitle
  cases args.title with
  | none => rfl
  | some s => by_cases h : s = "" <;> simp [h]

/-- The description merge step writes only the description field. -/
theorem applyDescription_keep (args : Args) (t : Task) :
    (applyDescription args t).title = t.title
    ∧ (applyDescription args t).status = t.status := by
  unfold applyDescription
  cases args.description <;> exact ⟨rfl, rfl⟩

/-- Description produced by the description merge step: any provided
value is applied, the empty string included. -/
theorem applyDescription_description (args : Args) (t : Task) :
    (applyDescription args t).description
      = match args.description with
        | some s => s
        | none => t.description := by
  unfold applyDescription
  cases args.description <;> rfl

/-- The status merge step writes only the status field. -/
theorem applyStatus_keep (args : Args) (t : Task) :
    (applyStatus args t).title = t.title
    ∧ (applyStatus args t).description = t.description := by
  unfold applyStatus
  cases args.status with
  | none => exact ⟨rfl, rfl⟩
  | some s => by_cases h : s = "" <;> simp [h]

/-- Status produced by the status merge step: a provided empty string
is ignored. -/
theorem applyStatus_status (args : Args) (t : Task) :
    (applyStatus args t).status
      = match args.status with
        | some s => if s ≠ "" then s else t.status
        | none => t.status := by
  unfold applyStatus
  cases args.status with
  | none => rfl
  | some s => by_cases h : s = "" <;> simp [h]

/-- The start-time merge step writes only the start-time field. -/
theorem applyStart_keep (parse : String → Option Int) (args : Args) (t : Task) :
    (applyStart parse args t).title = t.title
    ∧ (applyStart parse args t).description = t.description
    ∧ (applyStart parse args t).status = t.status := by
  unfold applyStart
  cases args.start_time with
  | none => exact ⟨rfl, rfl, rfl⟩
  | some s =>
    by_cases h : s = ""
    · simp [h]
    · simp only [h, ne_eq, not_false_iff, if_true]
      cases parse s <;> exact ⟨rfl, rfl, rfl⟩

/-- The end-time merge step writes only the end-time field. -/
theorem applyEnd_keep (parse : String → Option Int) (args : Args) (t : Task) :
    (applyEnd parse args t).title = t.title
    ∧ (applyEnd parse args t).description = t.description
    ∧ (applyEnd parse args t).status = t.status := by
  unfold applyEnd
  cases args.end_time with
  | none => exact ⟨rfl, rfl, rfl⟩
  | some s =>
    by_cases h : s = ""
    · simp [h]
    · simp only [h, ne_eq, not_false_iff, if_true]
      cases parse s <;> exact ⟨rfl, rfl, rfl⟩

/-- An unparsable value makes the start-time merge step a no-op. -/
theorem applyStart_unparsable (parse : String → Option Int) (args : Args) (t : Task)
    (h : parse (args.start_time.getD "") = none) :
    applyStart parse args t = t := by
  unfold applyStart
  cases hs : args.start_time with
  | none => rfl
  | some s =>
    rw [hs] at h
    simp only [Option.getD_some] at h
    by_cases he : s = ""
    · simp [he]
    · simp [he, h]

/-- An unparsable value makes the end-time merge step a no-op. -/
theorem applyEnd_unparsable (parse : String → Option Int) (args : Args) (t : Task)
    (h : parse (args.end_time.getD "") = none) :
    applyEnd parse args t = t := by
  unfold applyEnd
  cases hs : args.end_time with
  | none => rfl
  | some s =>
    rw [hs] at h
    simp only [Option.getD_some] at h
    by_cases he : s = ""
    · simp [he]
    · simp [he, h]

/-- C8: in `update_task`, a provided `start_time` or `end_time` that
does not parse under the RFC3339 format is silently skipped — the
merge leaves that stored time field at its previous value, and the
whole request behaves exactly as if the unparsable field had not been
provided at all: the remaining provided fields (the other time field
included, whether valid, absent or itself bad) are still merged and
persisted, with no rejection caused by the bad timestamp.  Each pair
of conjuncts fixes one bad field while the rest of the argument map —
in particular the other time field — stays arbitrary. -/
theorem updateTask_bad_time_skipped (parse : String → Option Int) (st : PlannerState)
    (args : Args) (s1 s2 : String) (h1 : parse s1 = none) (h2 : parse s2 = none) :
    (∀ t, mergeTaskArgs parse t { args with start_time := some s1 }
        = mergeTaskArgs parse t { args with start_time := none })
    ∧ handleUpdateTask parse st { args with start_time := some s1 }
        = handleUpdateTask parse st { args with start_time := none }
    ∧ (∀ t, mergeTaskArgs parse t { args with end_time := some s2 }
        = mergeTaskArgs parse t { args with end_time := none })
    ∧ handleUpdateTask parse st { args with end_time := some s2 }
        = handleUpdateTask parse st { args with end_time := none } := by
  obtain ⟨ti, de, sta, en, stt, idv, ov, fn⟩ := args
  have hm1 : ∀ t, mergeTaskArgs parse t ⟨ti, de, some s1, en, stt, idv, ov, fn⟩
      = mergeTaskArgs parse t ⟨ti, de, none, en, stt, idv, ov, fn⟩ := by
    intro t
    unfold mergeTaskArgs
    rw [applyStart_unparsable parse ⟨ti, de, some s1, en, stt, idv, ov, fn⟩ _ h1]
    rfl
  have hm2 : ∀ t, mergeTaskArgs parse t ⟨ti, de, sta, some s2, stt, idv, ov, fn⟩
      = mergeTaskArgs parse t ⟨ti, de, sta, none, stt, idv, ov, fn⟩ := by
    intro t
    unfold mergeTaskArgs
    rw [applyEnd_unparsable parse ⟨ti, de, sta, some s2, stt, idv, ov, fn⟩ _ h2]
    rfl
  refine ⟨hm1, ?_, hm2, ?_⟩
  · simp only [handleUpdateTask]
    cases idv with
    | none => rfl
    | some id =>
      cases hgt : GetTask st.tasks id with
      | error e => simp [hgt]
      | ok t0 => simp [hgt, hm1 t0]
  · simp only [handleUpdateTask]
    cases idv with
    | none => rfl
    | some id =>
      cases hgt : GetTask st.tasks id with
      | error e => simp [hgt]
      | ok t0 => simp [hgt, hm2 t0]

/-- Concrete evaluation for C8: a request carrying a garbage
`start_time` next to a valid `end_time` and a new title behaves
exactly like the same request without the `start_time` argument, both
at the merge and at the handler; a request whose only time field is a
garbage `end_time` likewise behaves like one without it. -/
theorem updateTask_bad_time_skipped_witness :
    (mergeTaskArgs parseFix ⟨1, "a", "d", 0, 10, "pending", false⟩
        { title := some "New", start_time := some "garbage",
          end_time := some "2024-01-01T11:00:00Z" }
      = mergeTaskArgs parseFix ⟨1, "a", "d", 0, 10, "pending", false⟩
        { title := some "New", start_time := none,
          end_time := some "2024-01-01T11:00:00Z" })
    ∧ handleUpdateTask parseFix ⟨[⟨1, "a", "d", 0, 10, "pending", false⟩], 2⟩
        { title := some "New", start_time := some "garbage",
          end_time := some "2024-01-01T11:00:00Z" }
      = handleUpdateTask parseFix ⟨[⟨1, "a", "d", 0, 10, "pending", false⟩], 2⟩
        { title := some "New", start_time := none,
          end_time := some "2024-01-01T11:00:00Z" }
    ∧ handleUpdateTask parseFix ⟨[⟨1, "a", "d", 0, 10, "pending", false⟩], 2⟩
        { title := some "New", end_time := some "junk" }
      = handleUpdateTask parseFix ⟨[⟨1, "a", "d", 0, 10, "pending", false⟩], 2⟩
        { title := some "New", end_time := none } :=
  ⟨(updateTask_bad_time_skipped parseFix ⟨[⟨1, "a", "d", 0, 10, "pending", false⟩], 2⟩
      { title := some "New", end_time := some "2024-01-01T11:00:00Z" }
      "garbage" "junk" (by decide) (by decide)).1
    ⟨1, "a", "d", 0, 10, "pending", false⟩,
   (updateTask_bad_time_skipped parseFix ⟨[⟨1, "a", "d", 0, 10, "pending", false⟩], 2⟩
      { title := some "New", end_time := some "2024-01-01T11:00:00Z" }
      "garbage" "junk" (by decide) (by decide)).2.1,
   (updateTask_bad_time_skipped parseFix ⟨[⟨1, "a", "d", 0, 10, "pending", false⟩], 2⟩
      { title := some "New" } "garbage" "junk" (by decide) (by decide)).2.2.2⟩

/-- C10: in `update_task`'s field merge an empty-string `title` or
`status` is treated as not provided and leaves the stored field
unchanged, while an empty-string `description` overwrites (clears) the
stored description; consequently the merge can never introduce an
empty title or status that was not already stored, but can erase the
description. -/
theorem updateMerge_empty_string_fields (parse : String → Option Int)
    (t : Task) (args : Args) :
    (mergeTaskArgs parse t
        { args with title := some "", status := some "", description := some "" }).title
      = t.title
    ∧ (mergeTaskArgs parse t
        { args with title := some "", status := some "", description := some "" }).status
      = t.status
    ∧ (mergeTaskArgs parse t
        { args with title := some "", status := some "", description := some "" }).description
      = ""
    ∧ ((mergeTaskArgs parse t args).title = "" → t.title = "")
    ∧ ((mergeTaskArgs parse t args).status = "" → t.status = "") := by
  have htitle : ∀ (a : Args), (mergeTaskArgs parse t a).title
      = match a.title with
        | some s => if s ≠ "" then s else t.title
        | none => t.title := by
    intro a
    unfold mergeTaskArgs
    rw [(applyEnd_keep parse a _).1, (applyStart_keep parse a _).1,
      (applyStatus_keep a _).1, (applyDescription_keep a _).1, applyTitle_title]
  have hstatus : ∀ (a : Args), (mergeTaskArgs parse t a).status
      = match a.status with
        | some s => if s ≠ "" then s else t.status
        | none => t.status := by
    intro a
    unfold mergeTaskArgs
    rw [(applyEnd_keep parse a _).2.2, (applyStart_keep parse a _).2.2,
      applyStatus_status, (applyDescription_keep a _).2, (applyTitle_keep a _).2]
  have hdesc : ∀ (a : Args), (mergeTaskArgs parse t a).description
      = match a.description with
        | some s => s
        | none => t.description := by
    intro a
    unfold mergeTaskArgs
    rw [(applyEnd_keep parse a _).2.1, (applyStart_keep parse a _).2.1,
      (applyStatus_keep a _).2, applyDescription_description,
      (applyTitle_keep a t).1]
  refine ⟨?_, ?_, ?_, ?_, ?_⟩
  · rw [htitle]; simp
  · rw [hstatus]; simp
  · rw [hdesc]
  · intro h
    rw [htitle] at h
    revert h
    cases args.title with
    | none => exact fun h => h
    | some s =>
      by_cases hs : s = "" <;> simp [hs]
  · intro h
    rw [hstatus] at h
    revert h
    cases args.status with
    | none => exact fun h => h
    | some s =>
      by_cases hs : s = "" <;> simp [hs]

/-- Concrete evaluation for C10: empty-string title and status leave
the stored values, empty-string description clears it. -/
theorem updateMerge_empty_string_fields_witness :
    (mergeTaskArgs parseFix ⟨1, "a", "d", 0, 10, "pending", false⟩
        { title := some "", status := some "", description := some "" }).title = "a"
    ∧ (mergeTaskArgs parseFix ⟨1, "a", "d", 0, 10, "pending", false⟩
        { title := some "", status := some "", description := some "" }).status = "pending"
    ∧ (mergeTaskArgs parseFix ⟨1, "a", "d", 0, 10, "pending", false⟩
        { title := some "", status := some "", description := some "" }).description = "" :=
  ⟨(updateMerge_empty_string_fields parseFix ⟨1, "a", "d", 0, 10, "pending", false⟩ {}).1,
   (updateMerge_empty_string_fields parseFix ⟨1, "a", "d", 0, 10, "pending", false⟩ {}).2.1,
   (updateMerge_empty_string_fields parseFix ⟨1, "a", "d", 0, 10, "pending", false⟩ {}).2.2.1⟩

/-- C9: one turn of the agent's tool-dispatch loop terminates exactly
on the first model response requesting zero tool invocations, whose
text is the final answer; the loop has no iteration cap, so a model
that requests at least one tool invocation on every response never
terminates the turn (it exhausts any amount of fuel). -/
theorem chat_dispatch_loop_termination (parse : String → Option Int) (now : Int) :
    (∀ (model : List ChatMsg → ModelResponse) (st : PlannerState)
        (hist : List ChatMsg) (fuel : Nat),
      (model hist).toolCalls = [] →
        chatLoop parse now model (fuel + 1) st hist = some ((model hist).content, st))
    ∧ (∀ (model : List ChatMsg → ModelResponse),
        (∀ h, (model h).toolCalls ≠ []) →
        ∀ (fuel : Nat) (st : PlannerState) (hist : List ChatMsg),
          chatLoop parse now model fuel st hist = none) := by
  constructor
  · intro model st hist fuel h
    simp [chatLoop, h]
  · intro model hm fuel
    induction fuel with
    | zero => intro st hist; rfl
    | succ n ih =>
      intro st hist
      have hne : (model hist).toolCalls.isEmpty = false := by
        cases hc : (model hist).toolCalls with
        | nil => exact absurd hc (hm hist)
        | cons a l => rfl
      simp only [chatLoop, hne, Bool.false_eq_true, if_false]
      exact ih _ _

/-- Concrete evaluation for C9: a tool-free response ends the turn at
once with its text, while an always-tool-calling model leaves the loop
still running after any concrete amount of fuel. -/
theorem chat_dispatch_loop_termination_witness :
    chatLoop parseFix 0 modelStop 1 ⟨[], 1⟩ [] = some ("done", ⟨[], 1⟩)
    ∧ chatLoop parseFix 0 modelSpin 5 ⟨[], 1⟩ [] = none :=
  ⟨(chat_dispatch_loop_termination parseFix 0).1 modelStop ⟨[], 1⟩ [] 0 rfl,
   (chat_dispatch_loop_termination parseFix 0).2 modelSpin
     (fun h => by simp [modelSpin]) 5 ⟨[], 1⟩ []⟩

end Gomentum
